import Mathlib

/-!
Verification of the jwknife command-line tool against its specification.

The definitions below are shallow embeddings of the Go source:
- `valflag`, `oneOf` mirror flags.go
- `tokenize`, `runCmds` mirror the tokenizer and pipeline loop of main.go
- `httpConf`, `doLoop` mirror the resilient transport loop of the http
  configuration file (httpConf.Do)
- `writeFormat`, `handleWritePath` mirror write.go / the flag-based write file
- `setstrHandle` mirrors the -setstr closure in gen.go

Go machine integers and durations are modelled as ℚ (time in seconds);
errors are modelled as `Option String` / `Except String` carrying the
error message built by the source.
-/

namespace Jwknife

/-! ## Value cells (flags.go) -/

/-- Model of the Go generic `valflag[T]` struct from flags.go.

`novalType` models the Go dynamic-type test `any(f.Value) == any(novalue{})`,
which holds exactly when the cell was instantiated at the `novalue` sentinel
type (i.e. `addNoValueFlag`); it depends only on the type parameter `T` in Go.

Go's `f.Value, err = f.Parse(value)` assigns both the value and the error, so
`Parse` (and `Update`) return a pair `T × Option String` where the second
component is the error message, `none` meaning Go's `nil` error. -/
structure valflag (T : Type) where
  Name : String
  IsSet : Bool
  Value : T
  novalType : Bool
  Parse : String → T × Option String
  Update : Option (T → String → T × Option String)

/-- Model of `(*valflag[T]).Set` from flags.go: returns the updated cell and
the error. Go returns early (before setting `IsSet`) on the duplicate check. -/
def valflag.Set {T : Type} (f : valflag T) : valflag T × Option String :=
  if f.IsSet ∧ f.Update.isNone then
    (f, some ("duplicate flag --" ++ f.Name))
  else
    let f2 := { f with IsSet := true }
    if f2.novalType then (f2, none)
    else (f2, some ("missing value for --" ++ f.Name))

/-- Model of `(*valflag[T]).SetValue` from flags.go. The switch cases are in
source order: no-value check, empty-value check, update-with-updater,
duplicate, first parse. -/
def valflag.SetValue {T : Type} (f : valflag T) (value : String) :
    valflag T × Option String :=
  let update := f.IsSet
  let f2 := { f with IsSet := true }
  if f2.novalType then
    (f2, some ("--" ++ f.Name ++ " does not take a value"))
  else if value = "" then
    (f2, some ("value for --" ++ f.Name ++ " must not be empty"))
  else if update then
    match f2.Update with
    | some u =>
      let r := u f2.Value value
      ({ f2 with Value := r.1 }, r.2)
    | none => (f2, some ("duplicate flag --" ++ f.Name))
  else
    let r := f2.Parse value
    ({ f2 with Value := r.1 }, r.2)

/-- Model of `addNoValueFlag`'s freshly constructed cell for a given name:
`valflag[novalue]{Name: name}` with zero values for the other fields. -/
def addNoValueFlag (name : String) : valflag Unit :=
  { Name := name, IsSet := false, Value := (), novalType := true
    Parse := fun _ => ((), none), Update := none }

/-- Model of `addUnparsedFlag`'s freshly constructed cell: a string cell whose
parse function returns the text unchanged, with no update function. -/
def addUnparsedFlag (name : String) : valflag String :=
  { Name := name, IsSet := false, Value := "", novalType := false
    Parse := fun v => (v, none), Update := none }

/-! ## The oneOf constraint validator (flags.go) -/

/-- The view of a flag that `oneOf` consumes through the `flag` interface:
its display name and its set/unset state. -/
structure FlagView where
  name : String
  isSet : Bool

/-- Model of `oneOf` from flags.go. Returns `none` for Go's `nil` error and
`some msg` for an error with message `msg`. `strings.Join` is modelled by
`String.intercalate`. -/
def oneOf (noneOK : Bool) (flags : List FlagView) : Option String :=
  let count := (flags.filter (fun f => f.isSet)).length
  if count = 1 then none
  else if noneOK ∧ count = 0 then none
  else
    let names := flags.map (fun f => "--" ++ f.name)
    let lastidx := names.length - 1
    let allbut := names.take lastidx
    let last := names.getD lastidx ""
    if count = 0 then
      if flags.length = 2 then
        some ("must specify one of " ++ String.intercalate " or " names)
      else
        some ("must specify one of " ++ String.intercalate ", " allbut ++ ", or " ++ last)
    else if flags.length = 2 then
      some ("cannot specify both " ++ String.intercalate " and " names)
    else
      some ("cannot specify multiple of " ++ String.intercalate ", " allbut ++ ", and " ++ last)

/-! ## Tokenizer and pipeline dispatcher (main.go, `run`) -/

/-- Model of Go `strings.HasPrefix(arg, "-")`: the first character is a
dash. -/
def startsWithDash (arg : String) : Bool :=
  decide (arg.data.head? = some '-')

/-- One step of the tokenizer loop in `run`: a dash-led token is appended to
the last (current) invocation, any other token starts a new invocation. -/
def tokenStep (cmds : List (List String)) (arg : String) : List (List String) :=
  if startsWithDash arg then
    cmds.dropLast ++ [(cmds.getLastD []) ++ [arg]]
  else
    cmds ++ [[arg]]

/-- The tokenizer loop of `run` in main.go, over the arguments after the
program name. `none` models the early return printing usage on `--help`. -/
def tokenizeLoop : List String → List (List String) → Option (List (List String))
  | [], cmds => some cmds
  | arg :: rest, cmds =>
    if arg = "--help" then none
    else tokenizeLoop rest (tokenStep cmds arg)

/-- Tokenization as performed by `run`: the accumulator starts with the
synthetic `["opts"]` invocation. -/
def tokenize (args : List String) : Option (List (List String)) :=
  tokenizeLoop args [["opts"]]

/-- The dispatch loop of `run` in main.go, abstracted over the per-invocation
handlers (`handleOpts` / `handleRead` / `handleGen` / `handleWrite` and the
unknown-command error, all of which take the invocation and the shared set and
return an error): runs the invocations in order over the shared state `s`,
stopping at the first error. Also returns the list of invocations that were
actually executed, as the observable execution trace of the loop. -/
def runCmds {σ ε : Type} (handle : List String → σ → σ × Option ε) :
    List (List String) → σ → σ × Option ε × List (List String)
  | [], s => (s, none, [])
  | c :: rest, s =>
    let r := handle c s
    match r.2 with
    | some e => (r.1, some e, [c])
    | none =>
      let r2 := runCmds handle rest r.1
      (r2.1, r2.2.1, c :: r2.2.2)

/-! ## Resilient transport (httpConf.Do) -/

/-- Model of the `httpConf` struct: durations are in seconds, as ℚ. -/
structure httpConf where
  timeout : ℚ
  interval : ℚ
  backoff : ℚ
  retryFor : ℚ
  jitter : ℚ

/-- Model of `defaultHTTPConf`. -/
def defaultHTTPConf : httpConf :=
  { timeout := 10, interval := 1, backoff := 3/2, retryFor := 60, jitter := 1/10 }

/-- Outcome of one attempt (`client.Do` plus the `accept` predicate):
`success` is an accepted response, `transient` is either a transport error
whose `Temporary()` is true or a response rejected by `accept` (both take the
`continue` path), `fatal` is a non-temporary transport error. -/
inductive Outcome
  | success
  | transient
  | fatal
deriving DecidableEq

/-- Result of the modelled `Do` loop, carrying the start times of the
attempts that were performed. `ok` is a returned response, `errLast` is the
`return nil, lastErr` of the stop checks, `errFatal` is the early
`return nil, err` on a non-temporary error, and `outOfFuel` means the loop
was still running after `fuel` iterations (the Go loop has no iteration
bound of its own). -/
inductive DoResult
  | ok (attemptTimes : List ℚ)
  | errLast (attemptTimes : List ℚ)
  | errFatal (attemptTimes : List ℚ)
  | outOfFuel (attemptTimes : List ℚ)
deriving DecidableEq

/-- The retry loop of `httpConf.Do`, one fuel unit per iteration.

`outcome k` classifies attempt number `k` (0-based); `dur k` is the wall-time
the attempt consumes; `jrand k` is the `mathrand.Float64()` draw (in `[0,1)`)
used for the sleep before attempt `k`. `lastBefore` is the deadline computed
before the loop; `wait`, `interval`, `now` and `acc` are the loop state
(`wait` is the loop variable, `interval` is the mutable `c.interval`, `now`
is the current time, `acc` holds attempt start times, newest first). -/
def doLoop (c : httpConf) (outcome : ℕ → Outcome) (dur jrand : ℕ → ℚ)
    (lastBefore : ℚ) :
    ℕ → ℕ → Bool → ℚ → ℚ → List ℚ → DoResult
  | 0, _, _, _, _, acc => .outOfFuel acc.reverse
  | fuel + 1, k, wait, interval, now, acc =>
    let attempt : ℚ → ℚ → DoResult := fun interval2 now2 =>
      match outcome k with
      | .success => .ok (now2 :: acc).reverse
      | .fatal => .errFatal (now2 :: acc).reverse
      | .transient =>
        doLoop c outcome dur jrand lastBefore fuel (k + 1) true interval2
          (now2 + dur k) (now2 :: acc)
    if wait ∧ ¬interval = 0 then
      if c.retryFor = 0 then .errLast acc.reverse
      else if lastBefore < now + interval then .errLast acc.reverse
      else
        let sleep := if 0 < c.jitter then interval * (jrand k * c.jitter + 1)
          else interval
        let interval2 := if 1 < c.backoff then interval * c.backoff else interval
        attempt interval2 (now + sleep)
    else attempt interval now

/-- Model of `httpConf.Do` (attempt/retry part): the clock starts at 0, so
`lastBefore = retryFor`; the first iteration has `wait = false`, the
interval starts at `c.interval`. `fuel` bounds the number of loop
iterations examined. -/
def Do (c : httpConf) (outcome : ℕ → Outcome) (dur jrand : ℕ → ℚ)
    (fuel : ℕ) : DoResult :=
  doLoop c outcome dur jrand c.retryFor fuel 0 false c.interval 0 []

/-- Decision of a `CheckRedirect` policy, per net/http semantics: `follow`
(return nil), `useLastResponse` (return http.ErrUseLastResponse, keeping the
last response), or `errorStop` (any other error aborts the chain). -/
inductive RedirectDecision
  | follow
  | useLastResponse
  | errorStop (msg : String)
deriving DecidableEq

/-- Model of the `client.CheckRedirect` closure installed by `httpConf.Do`
when the original request URL scheme is "https": `targetScheme` is the
redirect target's scheme, `viaLen` is `len(via)`, the number of requests
already made in the chain. -/
def checkRedirect (targetScheme : String) (viaLen : ℕ) : RedirectDecision :=
  if ¬targetScheme = "https" then .useLastResponse
  else if 10 < viaLen then .errorStop "stopped after 10 requests"
  else .follow

/-! ## Write subcommand: output format selection (flag-based write file) -/

/-- The write flags relevant to output selection, after argument parsing:
the `IsSet` states of `-pubkey`, `-fullkey`, `-jwks`, `-pem`. -/
structure WriteFmt where
  pubkey : Bool
  fullkey : Bool
  jwks : Bool
  pem : Bool
deriving DecidableEq

/-- The format-selection steps of `handleWrite`: validate
`oneOf(true, jwks, pem)` then default `jwks` on when `pem` is unset;
validate `oneOf(true, pubkey, fullkey)` then default `pubkey` on when
`fullkey` is unset. Returns the flag states as seen by `encode`. -/
def writeFormat (f : WriteFmt) : Except String WriteFmt :=
  match oneOf true [⟨"jwks", f.jwks⟩, ⟨"pem", f.pem⟩] with
  | some e => .error e
  | none =>
    let f1 := if f.pem then f else { f with jwks := true }
    match oneOf true [⟨"pubkey", f1.pubkey⟩, ⟨"fullkey", f1.fullkey⟩] with
    | some e => .error e
    | none =>
      if f1.fullkey then .ok f1 else .ok { f1 with pubkey := true }

/-- The shape of the output produced by `encode` in `handleWrite`: either a
series of PEM blocks or a marshalled JWK set, in both cases replacing each
key by its public form when the `pubkey` flag state is on. -/
inductive EncodeShape
  | pemBlocks (publicOnly : Bool)
  | jwksJson (publicOnly : Bool)
deriving DecidableEq

/-- Which branch `encode` takes, from the flag states: the switch is on the
`pem` flag, and the `pubkey` flag decides whether `key.PublicKey()` replaces
each key. -/
def encodeShape (f : WriteFmt) : EncodeShape :=
  if f.pem then .pemBlocks f.pubkey else .jwksJson f.pubkey

/-! ## Write subcommand: path destination with -mkdir (handleWrite) -/

/-- Model of Go `path/filepath.Base` for slash-separated paths: empty path
gives ".", trailing slashes are dropped, then everything up to the last
slash is dropped; a path of only slashes gives "/". -/
def filepathBase (p : String) : String :=
  if p = "" then "."
  else
    let cs := p.data.reverse.dropWhile (fun c => c = '/')
    if cs = [] then "/"
    else String.mk (cs.takeWhile (fun c => ¬c = '/')).reverse

/-- Model of Go `path/filepath.Dir` for slash-separated (already clean)
paths: the path with its last element removed; "." when there is no slash,
"/" for paths directly under the root. -/
def filepathDir (p : String) : String :=
  let cs := p.data.reverse.dropWhile (fun c => c = '/')
  let rest := (cs.dropWhile (fun c => ¬c = '/')).dropWhile (fun c => c = '/')
  if rest = [] then (if p.data.head? = some '/' then "/" else ".")
  else String.mk rest.reverse

/-- Minimal filesystem model for the path branch of `handleWrite`: the set
of directories that exist. The working directory "." always exists. -/
structure FsState where
  dirs : List String
deriving DecidableEq

/-- `os.WriteFile` succeeds in this model iff the parent directory of the
path exists; otherwise it fails with a not-exist error. -/
def fsWriteFileOk (fs : FsState) (path : String) : Bool :=
  fs.dirs.contains (filepathDir path)

/-- `os.MkdirAll dir` in this model records `dir` as an existing
directory. -/
def fsMkdirAll (fs : FsState) (dir : String) : FsState :=
  { dirs := dir :: fs.dirs }

/-- The path branch of `handleWrite`: write the file; when that fails with a
not-exist error and the mkdir flag is set, call
`os.MkdirAll(filepath.Base(path), mkdirMode)` — note `Base`, exactly as in
the source — and retry the write once. Returns the final filesystem state
and whether the write succeeded. -/
def handleWritePath (fs : FsState) (path : String) (mkdirSet : Bool) :
    FsState × Bool :=
  if fsWriteFileOk fs path then (fs, true)
  else if mkdirSet then
    let fs2 := fsMkdirAll fs (filepathBase path)
    (fs2, fsWriteFileOk fs2 path)
  else (fs, false)

/-! ## Gen subcommand: -setstr property handling (handleGen) -/

/-- Model of Go `strings.Cut(s, "=")`: split at the first "=", returning
(before, after, found); when "=" does not occur, returns (s, "", false). -/
def cutEq (s : String) : String × String × Bool :=
  let before := s.data.takeWhile (fun c => ¬c = '=')
  let rest := s.data.dropWhile (fun c => ¬c = '=')
  match rest with
  | [] => (s, "", false)
  | _ :: after => (String.mk before, String.mk after, true)

/-- The property map built by the `-setstr`/`-setjson` closures, modelled as
an association list with map semantics (a key occurs at most once). -/
abbrev Props := List (String × String)

/-- `props[name] = value` on the Go map: overwrite any existing binding. -/
def propsSet (ps : Props) (k v : String) : Props :=
  (k, v) :: ps.filter (fun p => ¬p.1 = k)

/-- Model of the `-setstr` handler closure in `handleGen`: cut the argument
at "=", fail when there is no "=", then check `props[value]` — the supplied
value, exactly as in the source — for the duplicate error, and finally store
`props[name] = value`. -/
def setstrHandle (props : Props) (arg : String) : Except String Props :=
  let c := cutEq arg
  if ¬c.2.2 then .error "--set value must be key=value format"
  else if (props.lookup c.2.1).isSome then .error "duplicate --set key"
  else .ok (propsSet props c.1 c.2.1)

/-! ## Helper lemmas -/

theorem takeWhile_append_all {α : Type} (p : α → Bool) (l1 l2 : List α)
    (h : ∀ a ∈ l1, p a = true) :
    (l1 ++ l2).takeWhile p = l1 ++ l2.takeWhile p := by
  induction l1 with
  | nil => simp
  | cons a l ih =>
    simp only [List.cons_append, List.takeWhile_cons, h a (by simp), if_true]
    rw [ih (fun x hx => h x (by simp [hx]))]

theorem dropWhile_append_all {α : Type} (p : α → Bool) (l1 l2 : List α)
    (h : ∀ a ∈ l1, p a = true) :
    (l1 ++ l2).dropWhile p = l2.dropWhile p := by
  induction l1 with
  | nil => simp
  | cons a l ih =>
    simp only [List.cons_append, List.dropWhile_cons, h a (by simp)]
    exact ih (fun x hx => h x (by simp [hx]))

theorem string_mk_data (s : String) : String.mk s.data = s := rfl

theorem cutEq_append (k v : String) (hk : '=' ∉ k.data) :
    cutEq (k ++ "=" ++ v) = (k, v, true) := by
  have hdata : (k ++ "=" ++ v).data = k.data ++ ('=' :: v.data) := by
    simp [String.data_append]
  have hall : ∀ a ∈ k.data, (fun c => decide ¬c = '=') a = true := by
    intro a ha
    simp only [decide_eq_true_eq]
    exact fun heq => hk (heq ▸ ha)
  simp only [cutEq, hdata]
  rw [takeWhile_append_all _ _ _ hall, dropWhile_append_all _ _ _ hall]
  simp [string_mk_data]

theorem doLoop_step_attempt (c : httpConf) (o : ℕ → Outcome) (d j : ℕ → ℚ)
    (lb : ℚ) (fuel k : ℕ) (wait : Bool) (interval now : ℚ) (acc : List ℚ)
    (hg : ¬(wait = true ∧ ¬interval = 0)) (ho : o k = .transient) :
    doLoop c o d j lb (fuel + 1) k wait interval now acc =
      doLoop c o d j lb fuel (k + 1) true interval (now + d k) (now :: acc) := by
  simp only [doLoop]
  rw [if_neg hg]
  simp only [ho]

theorem doLoop_step_wait (c : httpConf) (o : ℕ → Outcome) (d j : ℕ → ℚ)
    (lb : ℚ) (fuel k : ℕ) (interval now : ℚ) (acc : List ℚ)
    (hi : ¬interval = 0) (hrf : ¬c.retryFor = 0) (hlb : ¬lb < now + interval)
    (hj : 0 < c.jitter) (hb : 1 < c.backoff) (ho : o k = .transient) :
    doLoop c o d j lb (fuel + 1) k true interval now acc =
      doLoop c o d j lb fuel (k + 1) true (interval * c.backoff)
        (now + interval * (j k * c.jitter + 1) + d k)
        ((now + interval * (j k * c.jitter + 1)) :: acc) := by
  simp only [doLoop]
  rw [if_pos (by exact ⟨trivial, hi⟩), if_neg hrf, if_neg hlb, if_pos hj, if_pos hb]
  simp only [ho]

theorem doLoop_stop (c : httpConf) (o : ℕ → Outcome) (d j : ℕ → ℚ)
    (lb : ℚ) (fuel k : ℕ) (interval now : ℚ) (acc : List ℚ)
    (hi : ¬interval = 0) (hrf : ¬c.retryFor = 0) (hlb : lb < now + interval) :
    doLoop c o d j lb (fuel + 1) k true interval now acc =
      .errLast acc.reverse := by
  simp only [doLoop]
  rw [if_pos (by exact ⟨trivial, hi⟩), if_neg hrf, if_pos hlb]

/-! ## Claim theorems -/

/-- Claim C4: for an HTTPS request, the redirect policy installed by
`httpConf.Do` never follows a redirect to a non-https scheme (it keeps the
last encrypted response), and a chain that has already made more than 10
requests is stopped with an error. -/
theorem redirect_policy_C4 :
    (∀ (s : String) (n : ℕ), ¬s = "https" →
      checkRedirect s n = .useLastResponse) ∧
    (∀ n : ℕ, 10 < n →
      checkRedirect "https" n = .errorStop "stopped after 10 requests") := by
  constructor
  · intro s n hs
    simp [checkRedirect, hs]
  · intro n hn
    simp [checkRedirect, hn]

/-- Witness for C4 at a concrete downgrade redirect and a concrete
too-long chain. -/
theorem redirect_policy_C4_witness :
    checkRedirect "http" 1 = .useLastResponse ∧
    checkRedirect "https" 11 = .errorStop "stopped after 10 requests" :=
  ⟨redirect_policy_C4.1 "http" 1 (by decide),
    redirect_policy_C4.2 11 (by decide)⟩

/-- Claim C5: `oneOf` succeeds exactly when one flag is set, or none are set
and `noneAllowed` holds; the error messages for the quoted concrete cases
are as the claim states them. -/
theorem oneOf_exactness_C5 :
    (∀ (noneOK : Bool) (flags : List FlagView), 2 ≤ flags.length →
      (oneOf noneOK flags = none ↔
        (flags.filter (fun f => f.isSet)).length = 1 ∨
          ((flags.filter (fun f => f.isSet)).length = 0 ∧ noneOK = true))) ∧
    oneOf false [⟨"a", false⟩, ⟨"b", false⟩] =
      some "must specify one of --a or --b" ∧
    oneOf false [⟨"a", false⟩, ⟨"b", false⟩, ⟨"c", false⟩] =
      some "must specify one of --a, --b, or --c" ∧
    oneOf false [⟨"a", true⟩, ⟨"b", true⟩] =
      some "cannot specify both --a and --b" ∧
    oneOf false [⟨"a", true⟩, ⟨"b", true⟩, ⟨"c", false⟩] =
      some "cannot specify multiple of --a, --b, and --c" := by
  refine ⟨?_, by decide, by decide, by decide, by decide⟩
  intro noneOK flags _
  simp only [oneOf]
  by_cases h1 : (flags.filter (fun f => f.isSet)).length = 1
  · simp [h1]
  · by_cases h2 : noneOK = true ∧ (flags.filter (fun f => f.isSet)).length = 0
    · simp [h1, h2.1, h2.2]
    · rw [if_neg h1, if_neg h2]
      constructor
      · intro h
        split_ifs at h
      · intro h
        rcases h with h | ⟨h0, hn⟩
        · exact absurd h h1
        · exact absurd ⟨hn, h0⟩ h2

/-- Witness for C5: one flag set among two passes the validator. -/
theorem oneOf_exactness_C5_witness :
    oneOf true [⟨"a", true⟩, ⟨"b", false⟩] = none :=
  (oneOf_exactness_C5.1 true [⟨"a", true⟩, ⟨"b", false⟩] (by decide)).mpr
    (Or.inl (by decide))

/-- Claim C6 counterexample: a no-value cell (here the `-jwks` flag of the
write subcommand) has no update function, yet the second of two `SetValue`
calls returns the does-not-take-a-value error, not the duplicate-flag error
the claim demands. -/
theorem duplicate_detection_C6_counterexample :
    ((((addNoValueFlag "jwks").SetValue "x").1.SetValue "x").2 =
      some "--jwks does not take a value") ∧
    ¬((((addNoValueFlag "jwks").SetValue "x").1.SetValue "x").2 =
      some "duplicate flag --jwks") := by
  constructor
  · rfl
  · intro h
    simp [addNoValueFlag, valflag.SetValue] at h

/-- Claim C6 as amended: for every cell with no update function, the second
of two `Set` calls returns the duplicate-flag error; the second of two
`SetValue` calls with nonempty values does so too provided the cell takes a
value (is not a no-value cell — a no-value cell's `SetValue` fails with a
does-not-take-a-value error on every call instead). In either case the
stored value after the second call is the value after the first call. -/
theorem duplicate_detection_amended_C6 {T : Type} (f : valflag T)
    (hupd : f.Update = none) :
    ((f.Set.1.Set).2 = some ("duplicate flag --" ++ f.Name) ∧
      (f.Set.1.Set).1.Value = f.Set.1.Value) ∧
    (∀ v1 v2 : String, f.novalType = false → ¬v1 = "" → ¬v2 = "" →
      (((f.SetValue v1).1.SetValue v2).2 =
          some ("duplicate flag --" ++ f.Name) ∧
        ((f.SetValue v1).1.SetValue v2).1.Value =
          (f.SetValue v1).1.Value)) := by
  constructor
  · rcases f with ⟨name, iset, val, nvt, parse, upd⟩
    simp only at hupd
    subst hupd
    cases iset <;> cases nvt <;> simp [valflag.Set]
  · intro v1 v2 hnvt hv1 hv2
    rcases f with ⟨name, iset, val, nvt, parse, upd⟩
    simp only at hupd hnvt
    subst hupd
    subst hnvt
    cases iset <;> simp [valflag.SetValue, hv1, hv2]

/-- Witness for the amended C6 at the `-path` string cell with values "a"
then "b", exercising both the Set-twice and the SetValue-twice clauses. -/
theorem duplicate_detection_amended_C6_witness :
    ((((addUnparsedFlag "path").Set.1.Set).2 =
        some ("duplicate flag --" ++ "path") ∧
      ((addUnparsedFlag "path").Set.1.Set).1.Value =
        (addUnparsedFlag "path").Set.1.Value) ∧
     ((((addUnparsedFlag "path").SetValue "a").1.SetValue "b").2 =
        some ("duplicate flag --" ++ "path") ∧
      (((addUnparsedFlag "path").SetValue "a").1.SetValue "b").1.Value =
        ((addUnparsedFlag "path").SetValue "a").1.Value)) := by
  have h := duplicate_detection_amended_C6 (addUnparsedFlag "path") rfl
  exact ⟨h.1, h.2 "a" "b" rfl (by decide) (by decide)⟩

/-- Claim C7: invocations run strictly in order; when the second of three
invocations fails, exactly the first two execute (the third is never
attempted) and the final shared state is the one the second handler left —
all mutations applied so far are kept, with no rollback. -/
theorem pipeline_short_circuit_C7 {σ ε : Type}
    (handle : List String → σ → σ × Option ε) (c1 c2 c3 : List String)
    (s0 s1 s2 : σ) (e : ε)
    (h1 : handle c1 s0 = (s1, none)) (h2 : handle c2 s1 = (s2, some e)) :
    runCmds handle [c1, c2, c3] s0 = (s2, some e, [c1, c2]) := by
  simp [runCmds, h1, h2]

/-- Witness for C7: a concrete three-invocation pipeline over a list state
where the second invocation fails. -/
theorem pipeline_short_circuit_C7_witness :
    runCmds
      (fun c s => if c = ["a"] then ((1 :: s : List ℕ), none)
        else if c = ["b"] then (2 :: s, some "boom") else (s, none))
      [["a"], ["b"], ["c"]] [] = ([2, 1], some "boom", [["a"], ["b"]]) :=
  pipeline_short_circuit_C7 _ ["a"] ["b"] ["c"] [] [1] [2, 1] "boom" rfl rfl

/-- Claim C8: the tokenizer appends dash-led tokens to the current invocation
and starts a new invocation at each non-dash token; the quoted argument list
produces exactly the two claimed invocations after the synthetic `opts`
invocation, which receives no flags. -/
theorem tokenizer_grouping_C8 :
    tokenize ["cmd1", "-x", "cmd2", "-y=1", "-z"] =
      some [["opts"], ["cmd1", "-x"], ["cmd2", "-y=1", "-z"]] ∧
    (∀ (cmds : List (List String)) (arg : String), startsWithDash arg = true →
      tokenStep cmds arg = cmds.dropLast ++ [cmds.getLastD [] ++ [arg]]) ∧
    (∀ (cmds : List (List String)) (arg : String), ¬startsWithDash arg = true →
      tokenStep cmds arg = cmds ++ [[arg]]) ∧
    (∀ (rest : List String) (cmds : List (List String)) (arg : String),
      ¬arg = "--help" →
      tokenizeLoop (arg :: rest) cmds = tokenizeLoop rest (tokenStep cmds arg)) := by
  refine ⟨by decide, ?_, ?_, ?_⟩
  · intro cmds arg h
    simp [tokenStep, h]
  · intro cmds arg h
    simp [tokenStep, h]
  · intro rest cmds arg h
    simp [tokenizeLoop, h]

/-- Witness for C8 at concrete tokens: a dash token extends the current
invocation, a bare token opens a new one, and the loop consumes a non-help
token via `tokenStep`. -/
theorem tokenizer_grouping_C8_witness :
    tokenStep [["opts"]] "-x" =
      ([["opts"]] : List (List String)).dropLast ++
        [([["opts"]] : List (List String)).getLastD [] ++ ["-x"]] ∧
    tokenStep [["opts"]] "cmd1" = [["opts"]] ++ [["cmd1"]] ∧
    tokenizeLoop ["-x"] [["opts"]] = tokenizeLoop [] (tokenStep [["opts"]] "-x") :=
  ⟨tokenizer_grouping_C8.2.1 [["opts"]] "-x" (by decide),
    tokenizer_grouping_C8.2.2.1 [["opts"]] "cmd1" (by decide),
    tokenizer_grouping_C8.2.2.2 [] [["opts"]] "-x" (by decide)⟩

/-- The retry policy of claim C3: `interval = 1s`, `backoff = 2`,
`retryFor = 3s`, the other fields (`timeout`, `jitter`) at their defaults. -/
def c3conf : httpConf :=
  { timeout := 10, interval := 1, backoff := 2, retryFor := 3, jitter := 1/10 }

/-- Claim C3: under the policy `interval=1s, backoff=2, retryFor=3s` (other
fields at defaults), a request that always fails transiently is attempted
exactly twice — at time 0 and at time `1s` plus jitter (plus the small
duration of the first attempt) — and then the transport returns the last
recorded error, since the next wait of 2s would exceed the 3s budget. The
attempt durations `dur` are assumed positive and small (at most 0.1s, within
the 10s per-attempt timeout), and the jitter draw is in `[0,1)` as produced
by `mathrand.Float64`. -/
theorem retry_two_attempts_C3 (outcome : ℕ → Outcome) (dur jrand : ℕ → ℚ)
    (f : ℕ) (hout : ∀ k, outcome k = .transient)
    (hd0 : 0 < dur 0) (hd0' : dur 0 ≤ 1/10) (hd1 : 0 ≤ dur (0 + 1))
    (hr : 0 ≤ jrand (0 + 1)) (hr1 : jrand (0 + 1) < 1) :
    Do c3conf outcome dur jrand (f + 3) =
      .errLast [0, dur 0 + jrand (0 + 1) / 10 + 1] ∧
    1 < dur 0 + jrand (0 + 1) / 10 + 1 ∧
    dur 0 + jrand (0 + 1) / 10 + 1 < 6/5 := by
  refine ⟨?_, by linarith, by linarith⟩
  show doLoop c3conf outcome dur jrand 3 ((f + 2) + 1) 0 false 1 0 [] = _
  rw [doLoop_step_attempt c3conf outcome dur jrand 3 (f + 2) 0 false 1 0 []
    (by simp) (hout 0)]
  rw [show f + 2 = (f + 1) + 1 from rfl]
  rw [doLoop_step_wait c3conf outcome dur jrand 3 (f + 1) (0 + 1) 1
    (0 + dur 0) [0] (by norm_num) (by norm_num [c3conf])
    (by push_neg; linarith)
    (by norm_num [c3conf]) (by norm_num [c3conf]) (hout (0 + 1))]
  rw [doLoop_stop c3conf outcome dur jrand 3 f ((0 + 1) + 1)
    (1 * c3conf.backoff)
    (0 + dur 0 + 1 * (jrand (0 + 1) * c3conf.jitter + 1) + dur (0 + 1))
    [0 + dur 0 + 1 * (jrand (0 + 1) * c3conf.jitter + 1), 0]
    (by norm_num [c3conf]) (by norm_num [c3conf])
    (by simp only [c3conf]; linarith)]
  simp only [List.reverse_cons, List.reverse_nil, List.nil_append,
    List.cons_append]
  simp only [c3conf]
  norm_num
  ring_nf

/-- Witness for C3: attempts of duration 0.05s and a jitter draw of 0.5
give exactly two attempts, at 0s and 1.1s, before the budget stops the
loop. -/
theorem retry_two_attempts_C3_witness :
    Do c3conf (fun _ => .transient) (fun _ => (1/20 : ℚ))
        (fun _ => (1/2 : ℚ)) (0 + 3) =
      .errLast [0, 1/20 + (1/2) / 10 + 1] ∧
    1 < (1/20 : ℚ) + (1/2) / 10 + 1 ∧
    (1/20 : ℚ) + (1/2) / 10 + 1 < 6/5 :=
  retry_two_attempts_C3 (fun _ => .transient) (fun _ => 1/20) (fun _ => 1/2) 0
    (fun _ => rfl) (by norm_num) (by norm_num) (by norm_num) (by norm_num)
    (by norm_num)

/-- Claim C9: with neither `-pubkey` nor `-fullkey` given, the defaults leave
only the public-key form selected; with neither `-jwks` nor `-pem` given, the
output is a JWK set. -/
theorem write_defaults_C9 :
    (∀ (jwks pem : Bool) (r : WriteFmt),
      writeFormat ⟨false, false, jwks, pem⟩ = .ok r →
        r.pubkey = true ∧ r.fullkey = false) ∧
    (∀ (pubkey fullkey : Bool) (r : WriteFmt),
      writeFormat ⟨pubkey, fullkey, false, false⟩ = .ok r →
        r.jwks = true ∧ r.pem = false ∧ encodeShape r = .jwksJson r.pubkey) := by
  constructor
  · intro jwks pem r h
    cases jwks <;> cases pem <;>
      simp only [writeFormat, oneOf] at h <;>
      simp_all [encodeShape] <;> simp [← h, encodeShape]
  · intro pubkey fullkey r h
    cases pubkey <;> cases fullkey <;>
      simp only [writeFormat, oneOf] at h <;>
      simp_all [encodeShape] <;> simp [← h, encodeShape]

/-- Witness for C9 at the all-defaults invocation (no format flags at all):
the selected format is the public-only JWK set. -/
theorem write_defaults_C9_witness :
    ((⟨true, false, true, false⟩ : WriteFmt).pubkey = true ∧
      (⟨true, false, true, false⟩ : WriteFmt).fullkey = false) ∧
    ((⟨true, false, true, false⟩ : WriteFmt).jwks = true ∧
      (⟨true, false, true, false⟩ : WriteFmt).pem = false ∧
      encodeShape ⟨true, false, true, false⟩ =
        .jwksJson (⟨true, false, true, false⟩ : WriteFmt).pubkey) :=
  ⟨write_defaults_C9.1 false false ⟨true, false, true, false⟩ rfl,
    write_defaults_C9.2 false false ⟨true, false, true, false⟩ rfl⟩

/-- Claim C10 counterexample: the claim's universal "both calls succeed" is
false — for `-setstr=alg=RS256` followed by `-setstr=alg=alg` (same key
"alg", different values), the second call's check of `props[value]` finds
the existing "alg" entry and fails with the duplicate error, even though the
keys are the same and the values differ. -/
theorem setstr_overwrite_C10_counterexample :
    setstrHandle [] ("alg" ++ "=" ++ "RS256") = .ok [("alg", "RS256")] ∧
    setstrHandle [("alg", "RS256")] ("alg" ++ "=" ++ "alg") =
      .error "duplicate --set key" := by
  constructor
  · rfl
  · rfl

/-- Claim C10 as amended: two `-setstr` arguments with the same property key
but different values both succeed — the duplicate check inspects the
supplied value, not the key — and the later value overwrites the earlier
one, provided the second supplied value is not itself the property key (in
that case the value-based check finds the key's existing entry and fails
with the duplicate error, as the counterexample shows). -/
theorem setstr_overwrite_C10 (k v1 v2 : String)
    (hk : '=' ∉ k.data) (hne : ¬v2 = k) :
    setstrHandle [] (k ++ "=" ++ v1) = .ok [(k, v1)] ∧
    setstrHandle [(k, v1)] (k ++ "=" ++ v2) = .ok [(k, v2)] ∧
    ([(k, v2)] : Props).lookup k = some v2 := by
  have hb : (v2 == k) = false := beq_eq_false_iff_ne.mpr hne
  refine ⟨?_, ?_, by simp⟩
  · simp [setstrHandle, cutEq_append k v1 hk, propsSet]
  · simp [setstrHandle, cutEq_append k v2 hk, propsSet, List.lookup, hb]

/-- Witness for C10: `-setstr=alg=RS256` followed by `-setstr=alg=ES256`
both succeed and the map ends up holding ES256 for alg. -/
theorem setstr_overwrite_C10_witness :
    setstrHandle [] ("alg" ++ "=" ++ "RS256") = .ok [("alg", "RS256")] ∧
    setstrHandle [("alg", "RS256")] ("alg" ++ "=" ++ "ES256") =
      .ok [("alg", "ES256")] ∧
    ([("alg", "ES256")] : Props).lookup "alg" = some "ES256" :=
  setstr_overwrite_C10 "alg" "RS256" "ES256" (by decide) (by decide)

/-- Claim C2 is a code bug: for destination path "sub/key.json" with the
mkdir flag set and the parent directory "sub" missing, the retry path of
`handleWrite` creates the directory `filepath.Base(path) = "key.json"`
instead of the missing parent "sub", and the retried write still fails. -/
theorem mkdir_wrong_directory_C2 :
    filepathBase "sub/key.json" = "key.json" ∧
    filepathDir "sub/key.json" = "sub" ∧
    handleWritePath ⟨["."]⟩ "sub/key.json" true =
      (⟨["key.json", "."]⟩, false) ∧
    ¬("sub" ∈ (handleWritePath ⟨["."]⟩ "sub/key.json" true).1.dirs) := by
  refine ⟨by decide, by decide, by decide, by decide⟩

/-- Claim C1 is a code bug: with `interval = 0` (remaining policy fields at
their defaults) and a request that always fails with a temporary transport
error, the loop guard `wait && c.interval != 0` skips every stop check, so
the transport keeps attempting — here three attempts happen within three
loop iterations, all at time 0, and the loop is still running — instead of
returning the last error without a second attempt. -/
theorem interval_zero_retries_C1 :
    Do { defaultHTTPConf with interval := 0 } (fun _ => .transient)
      (fun _ => 0) (fun _ => 0) 3 = .outOfFuel [0, 0, 0] := by
  rw [Do, show (3 : ℕ) = 2 + 1 from rfl,
    doLoop_step_attempt _ _ _ _ _ _ _ _ _ _ _ (by simp) rfl,
    show (2 : ℕ) = 1 + 1 from rfl,
    doLoop_step_attempt _ _ _ _ _ _ _ _ _ _ _ (by simp) rfl,
    show (1 : ℕ) = 0 + 1 from rfl,
    doLoop_step_attempt _ _ _ _ _ _ _ _ _ _ _ (by simp) rfl,
    doLoop]
  norm_num

end Jwknife
